import Mathlib

/-!
Verification of the liveness-detection and face-matching core of the
`ocdai` document-processing repository, against its natural-language
specification.

The embedding follows the Python source closely:

* `utils.check_image_quality`, `LivenessChecker` (`liveness_checker.py`)
  and `FaceMatcher` (`face_matcher.py`) become Lean functions over
  rational-valued pixel data (Python floats are modelled as `ℚ`, with
  exact rational arithmetic standing in for IEEE floats).
* External libraries (OpenCV, dlib, numpy's fft, face_recognition) are
  modelled as oracle structures: each library call the source makes is a
  field of an oracle, and theorems quantify over all oracles.  Where a
  library call has a documented semantics the claims depend on
  (`face_recognition.compare_faces` is `face_distance(...) <= tolerance`;
  `cv2.cvtColor` raises on an empty source matrix; `cv2.resize` rejects a
  zero-sized destination), that semantics is spelled out in the model.
* Python exceptions are modelled with `Except`: a raised, uncaught
  exception is `Except.error`, an ordinary return is `Except.ok`.
* Config defaults (`config.py`, no environment overrides):
  `BLINK_THRESHOLD = 2`, `FACE_MATCH_THRESHOLD = 0.6`,
  `FACE_DISTANCE_THRESHOLD = 0.6`.
-/

/-- A BGR image: rows of pixels, each pixel a list of channel values
(`numpy` 3-d uint8 array, values modelled as `ℚ`). -/
abbrev Img := List (List (List ℚ))

/-- A grayscale image: rows of scalar pixel values (`numpy` 2-d array). -/
abbrev Gray := List (List ℚ)

/-- Concatenation of a list of lists (row-major flattening, as `numpy`
reductions such as `np.mean` / `np.var` flatten their argument). -/
def flat2 {α : Type} (l : List (List α)) : List α := l.foldr (· ++ ·) []

/-- `np.mean` of a flat list of values (mean of the empty list is the
junk value `0`, a case excluded by well-formedness hypotheses). -/
def meanQ (l : List ℚ) : ℚ := l.sum / l.length

/-- `np.var` of a flat list of values: mean of squared deviations. -/
def varQ (l : List ℚ) : ℚ := ((l.map (fun x => (x - meanQ l) ^ 2)).sum) / l.length

/-- A constant image of `h` rows, `w` columns, 3 equal channels. -/
def uniformImg (h w : ℕ) (g : ℚ) : Img :=
  List.replicate h (List.replicate w (List.replicate 3 g))

/-- `cv2` error raised by a library call (an uncaught Python exception). -/
inductive CvErr where
  /-- `cv2.error`: assertion `!_src.empty()` failed (empty source matrix). -/
  | emptyMat : CvErr
  /-- `ZeroDivisionError` from Python arithmetic. -/
  | zeroDiv : CvErr
  deriving DecidableEq, Repr

/-- `cv2.Mat.empty()`: true when the image holds no pixel (zero rows, or
every row of zero width). -/
def imgEmptyB (img : Img) : Bool := img.all (·.isEmpty)

/-- Oracle for the OpenCV / numpy primitives the source calls.  Each field
models one external library routine as an uninterpreted function; theorems
hold for every oracle. -/
structure CvO where
  /-- `cv2.cvtColor(img, cv2.COLOR_BGR2GRAY)` on a non-empty image. -/
  bgr2gray : Img → Gray
  /-- `cv2.cvtColor(img, cv2.COLOR_BGR2RGB)`. -/
  bgr2rgb : Img → Img
  /-- `cv2.Laplacian(gray, cv2.CV_64F)`. -/
  laplacian : Gray → Gray
  /-- the `np.fft` / percentile pipeline of `passive_liveness_check`
  (lines 139-144 of `liveness_checker.py`): mean magnitude of the top
  decile of the shifted 2-d FFT spectrum. -/
  highFreq : Gray → ℚ
  /-- `np.sqrt`, as used inside `numpy.std` (std = sqrt of variance). -/
  sqrtQ : ℚ → ℚ

/-- `cv2.cvtColor` with its empty-source assertion: raises `cv2.error`
on an empty matrix, otherwise converts. -/
def cvtColorB2G (cv : CvO) (img : Img) : Except CvErr Gray :=
  if imgEmptyB img then .error .emptyMat else .ok (cv.bgr2gray img)

/-- `utils.check_image_quality`'s result dict. -/
structure Quality where
  brightness : ℚ
  blur_score : ℚ
  contrast : ℚ
  is_bright_enough : Bool
  is_sharp_enough : Bool
  has_good_contrast : Bool
  deriving DecidableEq, Repr

/-- `utils.check_image_quality` (utils.py lines 64-85).  The input is a
3-channel image, so the `len(image.shape) == 3` branch converts to
grayscale; brightness is the grayscale mean, the sharpness proxy is the
variance of the Laplacian response, contrast is the grayscale standard
deviation (`sqrt` of the variance, via the numpy oracle). -/
def check_image_quality (cv : CvO) (image : Img) : Except CvErr Quality := do
  let gray ← cvtColorB2G cv image
  let brightness := meanQ (flat2 gray)
  let blur_score := varQ (flat2 (cv.laplacian gray))
  let contrast := cv.sqrtQ (varQ (flat2 gray))
  pure { brightness := brightness
         blur_score := blur_score
         contrast := contrast
         is_bright_enough := decide (brightness > 50)
         is_sharp_enough := decide (blur_score > 100)
         has_good_contrast := decide (contrast > 30) }

/-- `LivenessChecker.EAR_THRESHOLD` (0.25). -/
def EAR_THRESHOLD : ℚ := 1/4

/-- `LivenessChecker.EAR_CONSEC_FRAMES`. -/
def EAR_CONSEC_FRAMES : ℕ := 3

/-- `Config.BLINK_THRESHOLD` default (`int(os.getenv("BLINK_THRESHOLD", "2"))`). -/
def BLINK_THRESHOLD : ℚ := 2

/-- Oracle for the dlib face detector and 68-landmark shape predictor.
`earOf frame` is the averaged left/right eye-aspect ratio computed by
`detect_blink` through the landmark pipeline; `none` models the cases
where the predictor is unavailable or the detector finds no face (both
make `detect_blink` return `(False, 0.0)`).  `faceRect frame` is the
first rectangle returned by the frontal face detector. -/
structure Det where
  earOf : Img → Option ℚ
  faceRect : Img → Option (ℚ × ℚ × ℚ × ℚ)

/-- `LivenessChecker.detect_blink` (lines 54-80): `(is_blink, avg_ear)`;
a frame with no detectable face (or no predictor) yields `(false, 0)`,
otherwise the frame is "closed" when the EAR is strictly below
`EAR_THRESHOLD`. -/
def detect_blink (det : Det) (frame : Img) : Bool × ℚ :=
  match det.earOf frame with
  | none => (false, 0)
  | some e => (decide (e < EAR_THRESHOLD), e)

/-- One iteration of the `count_blinks` loop body (lines 90-95), acting on
the local state `(consecutive_closed, blink_count)`. -/
def blinkStep (s : ℕ × ℕ) (closed : Bool) : ℕ × ℕ :=
  if closed then (s.1 + 1, s.2)
  else (0, if EAR_CONSEC_FRAMES ≤ s.1 then s.2 + 1 else s.2)

/-- `LivenessChecker.count_blinks` (lines 82-97): fold the blink-run
state over the frames; only local variables are used (no instance state
is read or written). -/
def count_blinks (det : Det) (frames : List Img) : ℕ :=
  (frames.foldl (fun s f => blinkStep s (detect_blink det f).1) (0, 0)).2

/-- `LivenessChecker.check_head_movement` (lines 99-125): needs at least
5 frames with detected faces; face centers are `((left+right)/2,
(top+bottom)/2)`; movement is detected when the variance of either
coordinate across the collected centers exceeds 100. -/
def check_head_movement (det : Det) (frames : List Img) : Bool :=
  if frames.length < 5 then false
  else
    let centers := frames.filterMap fun f =>
      (det.faceRect f).map fun r => ((r.1 + r.2.1) / 2, (r.2.2.1 + r.2.2.2) / 2)
    if centers.length < 5 then false
    else decide (varQ (centers.map Prod.fst) > 100 ∨ varQ (centers.map Prod.snd) > 100)

/-- `passive_liveness_check`'s result dict (lines 154-160). -/
structure Passive where
  is_live : Bool
  confidence : ℚ
  texture_score : ℚ
  color_variance : ℚ
  high_freq_score : ℚ
  deriving DecidableEq, Repr

/-- `LivenessChecker.passive_liveness_check` (lines 127-160): texture
energy is the variance of the Laplacian of the grayscale image, colour
variance is `np.var` over every channel value of the raw image, the
high-frequency cue comes from the FFT oracle; the decision is the
conjunction of the three cues and the confidence is
`min(100, (texture/100 + colorVar/1000 + highFreq/100) * 33.3)`. -/
def passive_liveness_check (cv : CvO) (image : Img) : Except CvErr Passive := do
  let gray ← cvtColorB2G cv image
  let texture_score := varQ (flat2 (cv.laplacian gray))
  let color_variance := varQ (flat2 (flat2 image))
  let high_freq_score := cv.highFreq gray
  let is_live := decide (texture_score > 50 ∧ color_variance > 100 ∧ high_freq_score > 10)
  let confidence :=
    min 100 ((texture_score / 100 + color_variance / 1000 + high_freq_score / 100) * (333/10))
  pure { is_live := is_live
         confidence := confidence
         texture_score := texture_score
         color_variance := color_variance
         high_freq_score := high_freq_score }

/-- `check_liveness`'s result dict (lines 169-176). -/
structure LivenessResult where
  quality_checks : Quality
  passive_liveness : Passive
  blink_count : ℕ
  head_movement_detected : Bool
  liveness_score : ℚ
  passed : Bool
  deriving DecidableEq, Repr

/-- `LivenessChecker.check_liveness` (lines 162-199).  Quality metrics
and the passive check always run on the primary image; the active branch
runs only when a frame list with more than one element is supplied
(`if frames and len(frames) > 1`), fusing
`blinkScore = min(100, blink_count / BLINK_THRESHOLD * 50)`,
`movementScore = 50 or 0` and the passive confidence by a three-way
average with strict pass cutoff 50; otherwise the passive confidence and
decision are reported unchanged. -/
def check_liveness (cv : CvO) (det : Det) (image : Img)
    (frames : Option (List Img)) : Except CvErr LivenessResult := do
  let quality_checks ← check_image_quality cv image
  let passive_result ← passive_liveness_check cv image
  match frames with
  | some fs =>
    if fs.length > 1 then
      let blink_count := count_blinks det fs
      let head_movement := check_head_movement det fs
      let blink_score : ℚ := min 100 ((blink_count : ℚ) / BLINK_THRESHOLD * 50)
      let movement_score : ℚ := if head_movement then 50 else 0
      let liveness_score := (blink_score + movement_score + passive_result.confidence) / 3
      pure { quality_checks := quality_checks
             passive_liveness := passive_result
             blink_count := blink_count
             head_movement_detected := head_movement
             liveness_score := liveness_score
             passed := decide (liveness_score > 50) }
    else
      pure { quality_checks := quality_checks
             passive_liveness := passive_result
             blink_count := 0
             head_movement_detected := false
             liveness_score := passive_result.confidence
             passed := passive_result.is_live }
  | none =>
    pure { quality_checks := quality_checks
           passive_liveness := passive_result
           blink_count := 0
           head_movement_detected := false
           liveness_score := passive_result.confidence
           passed := passive_result.is_live }

/-- The mutable per-session fields of `LivenessChecker` set in
`__init__` (lines 29-31): `blink_counter`, `frame_counter`, and the
`deque(maxlen=100)` named `blink_history`. -/
structure LivenessState where
  blink_counter : ℕ
  frame_counter : ℕ
  blink_history : List ℚ
  deriving DecidableEq, Repr

/-- `LivenessChecker.__init__`: counters zero, history empty. -/
def LivenessState.init : LivenessState := ⟨0, 0, []⟩

/-- `check_liveness` as a transformer of the tracker's mutable state.
None of `detect_blink`, `count_blinks`, `check_head_movement`,
`passive_liveness_check` or `check_liveness` reads or assigns
`self.blink_counter`, `self.frame_counter` or `self.blink_history`
(no `self.<field> =` statement and no `.append` on `blink_history`
occurs anywhere after `__init__`), so the state passes through
unchanged. -/
def check_liveness_st (cv : CvO) (det : Det) (st : LivenessState) (image : Img)
    (frames : Option (List Img)) : Except CvErr LivenessResult × LivenessState :=
  (check_liveness cv det image frames, st)

/-- Length of the maximal run of `true` (closed) flags at the front of a
classification sequence. -/
def leadingClosed : List Bool → ℕ
  | [] => 0
  | b :: r => if b then leadingClosed r + 1 else 0

/-- Length of the maximal run of closed frames at the end of a
classification sequence. -/
def closedSuffixLen (l : List Bool) : ℕ := leadingClosed l.reverse

/-- The blink count as the specification words it: the number of maximal
closed runs of length at least `EAR_CONSEC_FRAMES` that are followed by an
open frame.  Each such run is counted at the unique open frame that ends
it, so this is the number of indices `i` holding an open frame whose
immediately preceding maximal closed run has length at least 3. -/
def specBlinkEvents (flags : List Bool) : ℕ :=
  (List.range flags.length).countP fun i =>
    !(flags.getD i true) && decide (EAR_CONSEC_FRAMES ≤ closedSuffixLen (flags.take i))

lemma closedSuffixLen_nil : closedSuffixLen [] = 0 := rfl

lemma closedSuffixLen_concat (l : List Bool) (b : Bool) :
    closedSuffixLen (l ++ [b]) = if b then closedSuffixLen l + 1 else 0 := by
  simp [closedSuffixLen, leadingClosed]

lemma specBlinkEvents_nil : specBlinkEvents [] = 0 := rfl

lemma specBlinkEvents_concat (l : List Bool) (b : Bool) :
    specBlinkEvents (l ++ [b]) =
      specBlinkEvents l +
        (if !b && decide (EAR_CONSEC_FRAMES ≤ closedSuffixLen l) then 1 else 0) := by
  unfold specBlinkEvents
  rw [List.length_append, List.length_singleton, List.range_succ, List.countP_append]
  congr 1
  · apply List.countP_congr
    intro i hi
    rw [List.mem_range] at hi
    rw [List.getD_append _ _ _ _ hi, List.take_append_of_le_length (le_of_lt hi)]
  · rw [List.countP_cons, List.countP_nil,
      List.getD_append_right _ _ _ _ (le_refl _), Nat.sub_self, List.take_left]
    simp

/-- Invariant of the `count_blinks` loop: after folding a classification
sequence, the running `consecutive_closed` counter is the length of the
closed run at the end of the sequence, and the running `blink_count` is
the specification's count of completed blink events. -/
lemma foldl_blinkStep (flags : List Bool) :
    flags.foldl blinkStep (0, 0) = (closedSuffixLen flags, specBlinkEvents flags) := by
  induction flags using List.reverseRecOn with
  | nil => rfl
  | append_singleton l b ih =>
    rw [List.foldl_append, ih, List.foldl_cons, List.foldl_nil,
      specBlinkEvents_concat, closedSuffixLen_concat]
    cases b with
    | true => simp [blinkStep]
    | false =>
      by_cases h : EAR_CONSEC_FRAMES ≤ closedSuffixLen l <;> simp [blinkStep, h]

/-- `count_blinks` agrees with the specification's run-counting rule on
the per-frame classification sequence it induces. -/
lemma count_blinks_eq_spec (det : Det) (frames : List Img) :
    count_blinks det frames =
      specBlinkEvents (frames.map fun f => (detect_blink det f).1) := by
  unfold count_blinks
  rw [← List.foldl_map (fun f => (detect_blink det f).1) blinkStep, foldl_blinkStep]

/-- A one-pixel probe frame carrying a chosen EAR value in its single
channel entry. -/
def mkF (e : ℚ) : Img := [[[e]]]

/-- A concrete detector oracle that reads the EAR of a probe frame out of
its first channel value and detects no face rectangle. -/
def earProbe : Det :=
  { earOf := fun f => some (((f.headD []).headD []).headD 0)
    faceRect := fun _ => none }

/-- The spec's first synthetic EAR sequence, [0.3]*5 + [0.1]*4 + [0.3]*5. -/
def earSeq1 : List ℚ :=
  [3/10, 3/10, 3/10, 3/10, 3/10, 1/10, 1/10, 1/10, 1/10, 3/10, 3/10, 3/10, 3/10, 3/10]

/-- The spec's second synthetic EAR sequence, [0.3]*5 + [0.1]*2 + [0.3]*5. -/
def earSeq2 : List ℚ :=
  [3/10, 3/10, 3/10, 3/10, 3/10, 1/10, 1/10, 3/10, 3/10, 3/10, 3/10, 3/10]

/-- Claim C3: for any per-frame EAR sequence classified against threshold
0.25, `count_blinks` returns the number of maximal closed runs of length
at least 3 that are followed by an open (EAR ≥ threshold) frame; the
synthetic sequence [0.3]*5+[0.1]*4+[0.3]*5 yields exactly one blink and
[0.3]*5+[0.1]*2+[0.3]*5 yields zero. -/
theorem C3_blink_hysteresis :
    (∀ (det : Det) (frames : List Img),
      count_blinks det frames =
        specBlinkEvents (frames.map fun f => (detect_blink det f).1)) ∧
    count_blinks earProbe (earSeq1.map mkF) = 1 ∧
    count_blinks earProbe (earSeq2.map mkF) = 0 :=
  ⟨count_blinks_eq_spec,
    by simp [count_blinks, earSeq1, mkF, earProbe, detect_blink, blinkStep,
        EAR_THRESHOLD, EAR_CONSEC_FRAMES]; norm_num,
    by simp [count_blinks, earSeq2, mkF, earProbe, detect_blink, blinkStep,
        EAR_THRESHOLD, EAR_CONSEC_FRAMES]; norm_num⟩

lemma flat2_cons {α : Type} (x : List α) (r : List (List α)) :
    flat2 (x :: r) = x ++ flat2 r := rfl

lemma flat2_replicate_replicate {α : Type} (n m : ℕ) (a : α) :
    flat2 (List.replicate n (List.replicate m a)) = List.replicate (n * m) a := by
  induction n with
  | zero => simp [flat2]
  | succ k ih =>
    rw [List.replicate_succ, flat2_cons, ih, ← List.replicate_add]
    congr 1
    ring

lemma meanQ_replicate (n : ℕ) (hn : n ≠ 0) (g : ℚ) :
    meanQ (List.replicate n g) = g := by
  rw [meanQ, List.sum_replicate, List.length_replicate, nsmul_eq_mul]
  exact mul_div_cancel_left₀ g (Nat.cast_ne_zero.mpr hn)

/-- `np.var` of a constant sequence is zero. -/
lemma varQ_replicate (n : ℕ) (g : ℚ) : varQ (List.replicate n g) = 0 := by
  cases n with
  | zero => simp [varQ]
  | succ k =>
    rw [varQ, meanQ_replicate (k+1) (Nat.succ_ne_zero k) g, List.map_replicate]
    simp

/-- All channel values of a uniform image, flattened. -/
lemma flat2_flat2_uniform (h w : ℕ) (g : ℚ) :
    flat2 (flat2 (uniformImg h w g)) = List.replicate (h * w * 3) g := by
  rw [uniformImg, flat2_replicate_replicate, flat2_replicate_replicate]

/-- The payload `check_image_quality` returns when the conversion
succeeds (its lines 69-85, with `gray = cv2.cvtColor(image, BGR2GRAY)`). -/
def qualityPayload (cv : CvO) (image : Img) : Quality :=
  let gray := cv.bgr2gray image
  let brightness := meanQ (flat2 gray)
  let blur_score := varQ (flat2 (cv.laplacian gray))
  let contrast := cv.sqrtQ (varQ (flat2 gray))
  ⟨brightness, blur_score, contrast,
    decide (brightness > 50), decide (blur_score > 100), decide (contrast > 30)⟩

lemma check_image_quality_eq (cv : CvO) (image : Img) :
    check_image_quality cv image =
      if imgEmptyB image then .error .emptyMat else .ok (qualityPayload cv image) := by
  unfold check_image_quality cvtColorB2G qualityPayload
  by_cases hE : imgEmptyB image <;>
    simp [hE, Bind.bind, Except.bind, Pure.pure, Except.pure]

/-- The payload `passive_liveness_check` returns when the conversion
succeeds. -/
def passivePayload (cv : CvO) (image : Img) : Passive :=
  let gray := cv.bgr2gray image
  let texture_score := varQ (flat2 (cv.laplacian gray))
  let color_variance := varQ (flat2 (flat2 image))
  let high_freq_score := cv.highFreq gray
  { is_live := decide (texture_score > 50 ∧ color_variance > 100 ∧ high_freq_score > 10)
    confidence :=
      min 100 ((texture_score / 100 + color_variance / 1000 + high_freq_score / 100) * (333/10))
    texture_score := texture_score
    color_variance := color_variance
    high_freq_score := high_freq_score }

lemma passive_eq (cv : CvO) (image : Img) :
    passive_liveness_check cv image =
      if imgEmptyB image then .error .emptyMat else .ok (passivePayload cv image) := by
  unfold passive_liveness_check cvtColorB2G passivePayload
  by_cases hE : imgEmptyB image <;>
    simp [hE, Bind.bind, Except.bind, Pure.pure, Except.pure]

/-- The payload `check_liveness` returns when the conversions succeed. -/
def livenessPayload (cv : CvO) (det : Det) (image : Img)
    (frames : Option (List Img)) : LivenessResult :=
  let quality_checks := qualityPayload cv image
  let passive_result := passivePayload cv image
  match frames with
  | some fs =>
    if fs.length > 1 then
      let blink_count := count_blinks det fs
      let head_movement := check_head_movement det fs
      let blink_score : ℚ := min 100 ((blink_count : ℚ) / BLINK_THRESHOLD * 50)
      let movement_score : ℚ := if head_movement then 50 else 0
      let liveness_score := (blink_score + movement_score + passive_result.confidence) / 3
      ⟨quality_checks, passive_result, blink_count, head_movement,
        liveness_score, decide (liveness_score > 50)⟩
    else
      ⟨quality_checks, passive_result, 0, false,
        passive_result.confidence, passive_result.is_live⟩
  | none =>
    ⟨quality_checks, passive_result, 0, false,
      passive_result.confidence, passive_result.is_live⟩

lemma check_liveness_eq (cv : CvO) (det : Det) (image : Img)
    (frames : Option (List Img)) :
    check_liveness cv det image frames =
      if imgEmptyB image then .error .emptyMat
      else .ok (livenessPayload cv det image frames) := by
  unfold check_liveness livenessPayload
  rw [check_image_quality_eq, passive_eq]
  by_cases hE : imgEmptyB image
  · simp [hE, Bind.bind, Except.bind]
  · simp only [hE, if_false, Bool.false_eq_true]
    cases frames with
    | none => simp [Bind.bind, Except.bind, Pure.pure, Except.pure]
    | some fs =>
      by_cases hl : fs.length > 1 <;>
        simp [hl, Bind.bind, Except.bind, Pure.pure, Except.pure]

/-- A concrete OpenCV oracle for witnesses: every library routine returns
a fixed trivial value. -/
def cvTriv : CvO :=
  { bgr2gray := fun _ => [[0]]
    bgr2rgb := fun i => i
    laplacian := fun _ => [[0]]
    highFreq := fun _ => 0
    sqrtQ := fun q => q }

/-- A concrete detector oracle that never finds a face. -/
def detNoFace : Det := ⟨fun _ => none, fun _ => none⟩

/-- A concrete detector oracle that always reports a face. -/
def detAllFace : Det := ⟨fun _ => some (3/10), fun _ => some (1, 2, 3, 4)⟩

/-- A concrete 1x1 mid-gray image. -/
def img0 : Img := uniformImg 1 1 128

/-- 150 identical open-eye probe frames. -/
def frames150 : List Img := List.replicate 150 (mkF (3/10))

/-- Claim C1 (amended): the tracker's `blink_history` window is allocated
with capacity 100 but no operation ever appends to it, so processing any
frame sequence leaves the per-session state — counters and window —
exactly as constructed, and from the initial state the window holds no
sample at all. -/
theorem C1_window_never_populated :
    ∀ (cv : CvO) (det : Det) (st : LivenessState) (image : Img)
      (frames : Option (List Img)),
      (check_liveness_st cv det st image frames).2 = st ∧
      (check_liveness_st cv det LivenessState.init image frames).2.blink_history = [] :=
  fun _ _ _ _ _ => ⟨rfl, rfl⟩

/-- Claim C1, counterexample to the claim as stated: feeding 150 frames
into the tracker leaves 0 retained EAR samples, not min(150, 100) = 100 —
`blink_history` is initialized to `deque(maxlen=100)` and never appended
to by any code path. -/
theorem C1_counterexample :
    (check_liveness_st cvTriv earProbe LivenessState.init img0
        (some frames150)).2.blink_history.length = 0 ∧
    (0 : ℕ) ≠ min 150 100 :=
  ⟨rfl, by decide⟩

/-- Claim C2 (amended): `check_liveness` never inspects face regions of
the primary frame and has no `NoFaceDetected` outcome: its result is
identical under any two facial-region providers, and on any valid image
it is an ordinary pass/fail record whose quality metrics are those of
`check_image_quality` and whose single-frame score and decision come from
the passive analyzer alone. -/
theorem C2_no_face_ordinary_result :
    ∀ (cv : CvO) (det det' : Det) (image : Img),
      check_liveness cv det image none = check_liveness cv det' image none ∧
      (imgEmptyB image = false →
        ∃ r q, check_liveness cv det image none = .ok r ∧
          check_image_quality cv image = .ok q ∧
          r.quality_checks = q ∧
          r.liveness_score = r.passive_liveness.confidence ∧
          r.passed = r.passive_liveness.is_live) := by
  intro cv det det' image
  constructor
  · rfl
  · intro hE
    refine ⟨livenessPayload cv det image none, qualityPayload cv image, ?_, ?_, rfl, rfl, rfl⟩
    · rw [check_liveness_eq, hE]
      simp
    · rw [check_image_quality_eq, hE]
      simp

theorem C2_witness :
    check_liveness cvTriv detNoFace img0 none = check_liveness cvTriv detAllFace img0 none ∧
    (∃ r q, check_liveness cvTriv detNoFace img0 none = .ok r ∧
      check_image_quality cvTriv img0 = .ok q ∧
      r.quality_checks = q ∧
      r.liveness_score = r.passive_liveness.confidence ∧
      r.passed = r.passive_liveness.is_live) :=
  ⟨(C2_no_face_ordinary_result cvTriv detNoFace detAllFace img0).1,
   (C2_no_face_ordinary_result cvTriv detNoFace detAllFace img0).2 (by decide)⟩

/-- Claim C2, counterexample to the claim as stated: on a concrete image
for which the facial-region provider finds no face anywhere, the liveness
check does not fail fast with an error condition — it returns an ordinary
scored result, indistinguishable from the one produced when a face is
present. -/
theorem C2_counterexample :
    (∃ r, check_liveness cvTriv detNoFace img0 none = .ok r) ∧
    check_liveness cvTriv detNoFace img0 none = check_liveness cvTriv detAllFace img0 none := by
  constructor
  · refine ⟨livenessPayload cvTriv detNoFace img0 none, ?_⟩
    rw [check_liveness_eq]
    simp [show imgEmptyB img0 = false by decide]
  · rfl

/-- Two probe frames, enough to trigger the multi-frame branch. -/
def frames2 : List Img := [mkF (3/10), mkF (3/10)]

/-- Claim C4: with at least two frames supplied, the fused result
satisfies `blinkScore = min(100, blink_count / 2 * 50)` (default
`BLINK_THRESHOLD = 2`), `movementScore = 50` or `0` by head movement,
`liveness_score = (blinkScore + movementScore + passiveScore) / 3`, and
`passed` exactly when the fused score strictly exceeds 50. -/
theorem C4_multiframe_fusion :
    ∀ (cv : CvO) (det : Det) (image : Img) (frames : List Img),
      imgEmptyB image = false → 2 ≤ frames.length →
      ∃ r : LivenessResult, check_liveness cv det image (some frames) = .ok r ∧
        r.blink_count = count_blinks det frames ∧
        r.head_movement_detected = check_head_movement det frames ∧
        r.liveness_score =
          (min 100 ((r.blink_count : ℚ) / 2 * 50) +
            (if r.head_movement_detected then 50 else 0) +
            r.passive_liveness.confidence) / 3 ∧
        r.passed = decide (r.liveness_score > 50) := by
  intro cv det image frames hE hlen
  have hl : frames.length > 1 := hlen
  refine ⟨livenessPayload cv det image (some frames), ?_, ?_, ?_, ?_, ?_⟩
  · rw [check_liveness_eq, hE]
    simp
  · simp [livenessPayload, hl]
  · simp [livenessPayload, hl]
  · simp [livenessPayload, hl, BLINK_THRESHOLD]
  · simp [livenessPayload, hl]

theorem C4_witness :
    imgEmptyB img0 = false ∧ 2 ≤ frames2.length ∧
    (∃ r : LivenessResult, check_liveness cvTriv earProbe img0 (some frames2) = .ok r ∧
      r.blink_count = count_blinks earProbe frames2 ∧
      r.head_movement_detected = check_head_movement earProbe frames2 ∧
      r.liveness_score =
        (min 100 ((r.blink_count : ℚ) / 2 * 50) +
          (if r.head_movement_detected then 50 else 0) +
          r.passive_liveness.confidence) / 3 ∧
      r.passed = decide (r.liveness_score > 50)) :=
  ⟨by decide, by decide,
    C4_multiframe_fusion cvTriv earProbe img0 frames2 (by decide) (by decide)⟩

/-- Passive liveness on a uniform image always fails: the colour variance
of a constant image is 0, which breaks the conjunctive decision rule. -/
lemma passive_uniform_not_live (cv : CvO) (h w : ℕ) (g : ℚ) :
    (passivePayload cv (uniformImg h w g)).is_live = false := by
  have hc : varQ (flat2 (flat2 (uniformImg h w g))) = 0 := by
    rw [flat2_flat2_uniform, varQ_replicate]
  show decide (_ ∧ varQ (flat2 (flat2 (uniformImg h w g))) > 100 ∧ _) = false
  rw [hc, decide_eq_false_iff_not]
  rintro ⟨-, hgt, -⟩
  norm_num at hgt

/-- Claim C5: the passive analyzer decides `is_live` as the conjunction
`texture > 50 ∧ colorVariance > 100 ∧ highFreq > 10` with confidence
`min(100, (texture/100 + colorVariance/1000 + highFreq/100) * 33.3)`;
consequently any all-uniform image fails passive liveness and fails the
single-frame liveness check. -/
theorem C5_passive_decision :
    (∀ (cv : CvO) (image : Img) (p : Passive),
      passive_liveness_check cv image = .ok p →
      p.is_live =
        decide (p.texture_score > 50 ∧ p.color_variance > 100 ∧ p.high_freq_score > 10) ∧
      p.confidence =
        min 100 ((p.texture_score / 100 + p.color_variance / 1000 +
          p.high_freq_score / 100) * (333/10))) ∧
    (∀ (cv : CvO) (h w : ℕ) (g : ℚ) (p : Passive),
      passive_liveness_check cv (uniformImg h w g) = .ok p → p.is_live = false) ∧
    (∀ (cv : CvO) (det : Det) (h w : ℕ) (g : ℚ) (r : LivenessResult),
      check_liveness cv det (uniformImg h w g) none = .ok r → r.passed = false) := by
  refine ⟨?_, ?_, ?_⟩
  · intro cv image p hp
    rw [passive_eq] at hp
    by_cases hE : imgEmptyB image
    · rw [hE] at hp; simp at hp
    · rw [Bool.not_eq_true] at hE
      rw [hE] at hp
      simp only [Bool.false_eq_true, if_false, Except.ok.injEq] at hp
      subst hp
      exact ⟨rfl, rfl⟩
  · intro cv h w g p hp
    rw [passive_eq] at hp
    by_cases hE : imgEmptyB (uniformImg h w g)
    · rw [hE] at hp; simp at hp
    · rw [Bool.not_eq_true] at hE
      rw [hE] at hp
      simp only [Bool.false_eq_true, if_false, Except.ok.injEq] at hp
      subst hp
      exact passive_uniform_not_live cv h w g
  · intro cv det h w g r hr
    rw [check_liveness_eq] at hr
    by_cases hE : imgEmptyB (uniformImg h w g)
    · rw [hE] at hr; simp at hr
    · rw [Bool.not_eq_true] at hE
      rw [hE] at hr
      simp only [Bool.false_eq_true, if_false, Except.ok.injEq] at hr
      subst hr
      exact passive_uniform_not_live cv h w g

theorem C5_witness :
    (∃ p : Passive, passive_liveness_check cvTriv img0 = .ok p ∧ p.is_live = false) ∧
    (∃ r : LivenessResult, check_liveness cvTriv detNoFace img0 none = .ok r ∧
      r.passed = false) := by
  have hE : imgEmptyB img0 = false := by decide
  have hE' : imgEmptyB (uniformImg 1 1 128) = false := by decide
  constructor
  · refine ⟨passivePayload cvTriv img0, ?_, ?_⟩
    · rw [passive_eq, hE]; simp
    · exact C5_passive_decision.2.1 cvTriv 1 1 128 (passivePayload cvTriv img0)
        (by rw [passive_eq, hE']; simp [img0])
  · refine ⟨livenessPayload cvTriv detNoFace img0 none, ?_, ?_⟩
    · rw [check_liveness_eq, hE]; simp
    · exact C5_passive_decision.2.2 cvTriv detNoFace 1 1 128
        (livenessPayload cvTriv detNoFace img0 none)
        (by rw [check_liveness_eq, hE']; simp [img0])

/-- `Config.FACE_MATCH_THRESHOLD` default (`float(os.getenv(..., "0.6"))`). -/
def FACE_MATCH_THRESHOLD : ℚ := 3/5

/-- `Config.FACE_DISTANCE_THRESHOLD` default (`float(os.getenv(..., "0.6"))`). -/
def FACE_DISTANCE_THRESHOLD : ℚ := 3/5

/-- A face embedding vector (`face_recognition` 128-d encoding). -/
abbrev Emb := List ℚ

/-- Oracle for the `face_recognition` (dlib) library: `encodings` models
`face_recognition.face_encodings` (zero or more embeddings per image) and
`faceDist` the per-pair numeric distance the library computes inside
`face_recognition.face_distance` (the Euclidean norm of the difference of
the two embedding vectors). -/
structure FrO where
  encodings : Img → List Emb
  faceDist : Emb → Emb → ℚ

/-- `face_recognition.face_distance(known, candidate)`: the library
returns `np.linalg.norm(known - candidate, axis=1)`, one distance per
known embedding. -/
def face_distance (o : FrO) (known : List Emb) (cand : Emb) : List ℚ :=
  known.map fun k => o.faceDist k cand

/-- `face_recognition.compare_faces(known, candidate, tolerance)`: the
library returns `list(face_distance(known, candidate) <= tolerance)`. -/
def compare_faces_fr (o : FrO) (known : List Emb) (cand : Emb) (tol : ℚ) : List Bool :=
  known.map fun k => decide (o.faceDist k cand ≤ tol)

/-- `FaceMatcher` instance state (face_matcher.py lines 15-17). -/
structure FaceMatcher where
  threshold : ℚ
  distance_threshold : ℚ
  deriving DecidableEq, Repr

/-- `FaceMatcher.__init__(threshold=None)`: `self.threshold = threshold
or Config.FACE_MATCH_THRESHOLD` (Python `or`, so both `None` and the
falsy `0.0` fall back to the default) and `self.distance_threshold =
Config.FACE_DISTANCE_THRESHOLD`. -/
def mkFaceMatcher (threshold : Option ℚ) : FaceMatcher :=
  ⟨match threshold with
    | none => FACE_MATCH_THRESHOLD
    | some t => if t = 0 then FACE_MATCH_THRESHOLD else t,
   FACE_DISTANCE_THRESHOLD⟩

/-- The default matcher, `FaceMatcher()`. -/
def defaultMatcher : FaceMatcher := mkFaceMatcher none

/-- Result dict of a `FaceMatcher` comparison: `noFace` is the failure
dict of `compare_faces_dlib` (`success: False` plus an error message),
`dlib` its success dict (`success: True`, `match`, `distance`,
`similarity_score`, `confidence`, `method: "dlib"`), and `opencv` the
success dict of `compare_faces_opencv` (`success: True`, `match`,
`similarity_score`, `confidence`, `hist_similarity`, `ssim_score`,
`method: "opencv"`). -/
inductive MatchOutcome where
  | noFace (error : String)
  | dlib (matched : Bool) (distance similarity_score confidence : ℚ)
  | opencv (matched : Bool) (similarity_score confidence hist_similarity ssim_score : ℚ)
  deriving DecidableEq, Repr

/-- The `success` key of the result dict. -/
def MatchOutcome.success : MatchOutcome → Bool
  | .noFace _ => false
  | _ => true

/-- The `similarity_score` key of the result dict (the failure dict has
none; read it as 0). -/
def MatchOutcome.simScore : MatchOutcome → ℚ
  | .noFace _ => 0
  | .dlib _ _ s _ => s
  | .opencv _ s _ _ _ => s

/-- `FaceMatcher.compare_faces_dlib` (lines 19-52): convert both inputs
to RGB (the inputs are 3-channel), take the face encodings of each, fail
with the `success: False` dict when either list is empty
(`if not encodings1 or not encodings2`); otherwise compute the library
distance of the first encodings, the library tolerance comparison
against `self.distance_threshold`, `similarity = 1 - distance` and
`confidence = similarity * 100`. -/
def compare_faces_dlib (o : FrO) (cv : CvO) (m : FaceMatcher)
    (face1 face2 : Img) : MatchOutcome :=
  let encodings1 := o.encodings (cv.bgr2rgb face1)
  let encodings2 := o.encodings (cv.bgr2rgb face2)
  if encodings1.isEmpty ∨ encodings2.isEmpty then
    .noFace "Could not detect face in one or both images"
  else
    let face_dist := (face_distance o [encodings1.headD []] (encodings2.headD [])).headD 0
    let matched := (compare_faces_fr o [encodings1.headD []] (encodings2.headD [])
      m.distance_threshold).headD false
    let similarity_score := 1 - face_dist
    .dlib matched face_dist similarity_score (similarity_score * 100)

/-- A fixed 100x100 grayscale grid, the common size both crops are
resized to before the structural comparison. -/
abbrev Grid := Fin 100 → Fin 100 → ℚ

/-- Oracle for the OpenCV routines of the structural comparison:
`resizeGray` models `cv2.resize(face, (100,100))` followed by the
grayscale conversion (lines 83-89), `gaussBlur` models
`cv2.GaussianBlur(img, (11,11), 1.5)` on a 100x100 float grid, and
`sqrtQ` the square root inside `cv2.compareHist`'s correlation
denominator. -/
structure CvMatchO where
  resizeGray : Img → Grid
  gaussBlur : Grid → Grid
  sqrtQ : ℚ → ℚ

/-- `.mean()` of a 100x100 grid. -/
def gridMean (g : Grid) : ℚ := (∑ i : Fin 100, ∑ j : Fin 100, g i j) / (100 * 100)

/-- `cv2.calcHist([gray], [0], None, [256], [0, 256])`: 256 unit-width
bins, bin `b` counting the pixels whose value lies in `[b, b+1)`. -/
def calcHist (g : Grid) (b : Fin 256) : ℚ :=
  ∑ i : Fin 100, ∑ j : Fin 100, if (b : ℚ) ≤ g i j ∧ g i j < (b : ℚ) + 1 then 1 else 0

/-- `cv2.compareHist(hist1, hist2, cv2.HISTCMP_CORREL)`: the Pearson
correlation of the two histograms over the 256 bins, with the square
root of the product of the centred second moments in the denominator. -/
def compareHistCorrel (o : CvMatchO) (hist1 hist2 : Fin 256 → ℚ) : ℚ :=
  (∑ b : Fin 256, (hist1 b - (∑ c : Fin 256, hist1 c) / 256) *
      (hist2 b - (∑ c : Fin 256, hist2 c) / 256)) /
    o.sqrtQ ((∑ b : Fin 256, (hist1 b - (∑ c : Fin 256, hist1 c) / 256) ^ 2) *
      (∑ b : Fin 256, (hist2 b - (∑ c : Fin 256, hist2 c) / 256) ^ 2))

/-- `FaceMatcher._calculate_ssim` (lines 115-137): the SSIM map with
`C1 = 6.5025`, `C2 = 58.5225`, Gaussian-blurred means and (co)variances,
averaged over the grid. -/
def calculate_ssim (o : CvMatchO) (img1 img2 : Grid) : ℚ :=
  let C1 : ℚ := 65025 / 10000
  let C2 : ℚ := 585225 / 10000
  let mu1 := o.gaussBlur img1
  let mu2 := o.gaussBlur img2
  let mu1_sq := fun i j => mu1 i j ^ 2
  let mu2_sq := fun i j => mu2 i j ^ 2
  let mu1_mu2 := fun i j => mu1 i j * mu2 i j
  let sigma1_sq := fun i j => o.gaussBlur (fun a b => img1 a b ^ 2) i j - mu1_sq i j
  let sigma2_sq := fun i j => o.gaussBlur (fun a b => img2 a b ^ 2) i j - mu2_sq i j
  let sigma12 := fun i j => o.gaussBlur (fun a b => img1 a b * img2 a b) i j - mu1_mu2 i j
  gridMean fun i j =>
    ((2 * mu1_mu2 i j + C1) * (2 * sigma12 i j + C2)) /
      ((mu1_sq i j + mu2_sq i j + C1) * (sigma1_sq i j + sigma2_sq i j + C2))

/-- `FaceMatcher.compare_faces_opencv` (lines 80-113): resize both crops
to 100x100 grayscale, combine histogram correlation and SSIM by an
unweighted average, and match when the combined score strictly exceeds
`self.threshold`. -/
def compare_faces_opencv (o : CvMatchO) (m : FaceMatcher)
    (face1 face2 : Img) : MatchOutcome :=
  let gray1 := o.resizeGray face1
  let gray2 := o.resizeGray face2
  let similarity := compareHistCorrel o (calcHist gray1) (calcHist gray2)
  let ssim_score := calculate_ssim o gray1 gray2
  let combined_score := (similarity + ssim_score) / 2
  .opencv (decide (combined_score > m.threshold)) combined_score (combined_score * 100)
    similarity ssim_score

/-- `FaceMatcher.match_faces` (lines 139-147): dispatch on the method
string, with any unrecognized method falling through to the dlib
comparison. -/
def match_faces (o : FrO) (cv : CvO) (ocv : CvMatchO) (m : FaceMatcher)
    (face1 face2 : Img) (method : String) : MatchOutcome :=
  if method = "dlib" then compare_faces_dlib o cv m face1 face2
  else if method = "opencv" then compare_faces_opencv ocv m face1 face2
  else compare_faces_dlib o cv m face1 face2

/-- Histogram correlation is symmetric in its two arguments: the centred
product sum commutes, and so does the product under the square root. -/
lemma compareHistCorrel_comm (o : CvMatchO) (hist1 hist2 : Fin 256 → ℚ) :
    compareHistCorrel o hist1 hist2 = compareHistCorrel o hist2 hist1 := by
  unfold compareHistCorrel
  rw [Finset.sum_congr rfl fun b _ => mul_comm
      (hist1 b - (∑ c : Fin 256, hist1 c) / 256) (hist2 b - (∑ c : Fin 256, hist2 c) / 256),
    mul_comm (∑ b : Fin 256, (hist1 b - (∑ c : Fin 256, hist1 c) / 256) ^ 2)
      (∑ b : Fin 256, (hist2 b - (∑ c : Fin 256, hist2 c) / 256) ^ 2)]

/-- The SSIM map of the source is symmetric: swapping the two grids swaps
the blurred means and variances, and the pointwise formula is invariant
under that swap. -/
lemma calculate_ssim_comm (o : CvMatchO) (g1 g2 : Grid) :
    calculate_ssim o g1 g2 = calculate_ssim o g2 g1 := by
  have h12 : (fun a b => g1 a b * g2 a b) = (fun a b => g2 a b * g1 a b) := by
    funext a b; ring
  unfold calculate_ssim gridMean
  rw [h12]
  refine congrArg (fun x : ℚ => x / (100 * 100)) ?_
  refine Finset.sum_congr rfl fun i _ => Finset.sum_congr rfl fun j _ => ?_
  ring

/-- Claim C8: the structural comparison's combined score is symmetric —
exactly, not merely up to floating-point tolerance, since histogram
correlation, SSIM, and their average are each invariant under swapping
the two crops. -/
theorem C8_structural_symmetry :
    ∀ (o : CvMatchO) (m : FaceMatcher) (faceA faceB : Img),
      (compare_faces_opencv o m faceA faceB).simScore =
        (compare_faces_opencv o m faceB faceA).simScore := by
  intro o m A B
  show (compareHistCorrel o (calcHist (o.resizeGray A)) (calcHist (o.resizeGray B)) +
      calculate_ssim o (o.resizeGray A) (o.resizeGray B)) / 2 =
    (compareHistCorrel o (calcHist (o.resizeGray B)) (calcHist (o.resizeGray A)) +
      calculate_ssim o (o.resizeGray B) (o.resizeGray A)) / 2
  rw [compareHistCorrel_comm, calculate_ssim_comm]

/-- Claim C6: the embedding comparison fails with the `success: False`
no-face dict when either image yields zero encodings; otherwise it
reports the library distance `d` of the first encodings,
`similarity = 1 - d`, `matched` exactly when `d <= 0.6` (the default
`FACE_DISTANCE_THRESHOLD`), and `confidence = (1 - d) * 100`. -/
theorem C6_embedding_contract :
    ∀ (o : FrO) (cv : CvO) (face1 face2 : Img),
      ((o.encodings (cv.bgr2rgb face1)).isEmpty ∨ (o.encodings (cv.bgr2rgb face2)).isEmpty →
        compare_faces_dlib o cv defaultMatcher face1 face2 =
          .noFace "Could not detect face in one or both images" ∧
        (compare_faces_dlib o cv defaultMatcher face1 face2).success = false) ∧
      (¬((o.encodings (cv.bgr2rgb face1)).isEmpty ∨ (o.encodings (cv.bgr2rgb face2)).isEmpty) →
        compare_faces_dlib o cv defaultMatcher face1 face2 =
          .dlib (decide (o.faceDist ((o.encodings (cv.bgr2rgb face1)).headD [])
                  ((o.encodings (cv.bgr2rgb face2)).headD []) ≤ 3/5))
            (o.faceDist ((o.encodings (cv.bgr2rgb face1)).headD [])
              ((o.encodings (cv.bgr2rgb face2)).headD []))
            (1 - o.faceDist ((o.encodings (cv.bgr2rgb face1)).headD [])
              ((o.encodings (cv.bgr2rgb face2)).headD []))
            ((1 - o.faceDist ((o.encodings (cv.bgr2rgb face1)).headD [])
              ((o.encodings (cv.bgr2rgb face2)).headD [])) * 100)) := by
  intro o cv face1 face2
  constructor
  · intro hEmpty
    constructor
    · rw [compare_faces_dlib, if_pos hEmpty]
    · rw [compare_faces_dlib, if_pos hEmpty]; rfl
  · intro hBoth
    rw [compare_faces_dlib, if_neg hBoth]
    rfl

/-- A `face_recognition` oracle for witnesses: one fixed embedding per
image, all distances zero. -/
def frTriv : FrO := ⟨fun _ => [[1]], fun _ _ => 0⟩

/-- A `face_recognition` oracle for witnesses that finds no encodings. -/
def frNone : FrO := ⟨fun _ => [], fun _ _ => 0⟩

theorem C6_witness :
    (compare_faces_dlib frNone cvTriv defaultMatcher img0 img0 =
        .noFace "Could not detect face in one or both images" ∧
      (compare_faces_dlib frNone cvTriv defaultMatcher img0 img0).success = false) ∧
    compare_faces_dlib frTriv cvTriv defaultMatcher img0 img0 =
      .dlib (decide (frTriv.faceDist [1] [1] ≤ 3/5)) (frTriv.faceDist [1] [1])
        (1 - frTriv.faceDist [1] [1]) ((1 - frTriv.faceDist [1] [1]) * 100) :=
  ⟨(C6_embedding_contract frNone cvTriv img0 img0).1 (Or.inl rfl),
   (C6_embedding_contract frTriv cvTriv img0 img0).2 (by decide)⟩

/-- An OpenCV matcher oracle for witnesses. -/
def cvmTriv : CvMatchO := ⟨fun _ => fun _ _ => 0, fun g => g, fun q => q⟩

/-- Claim C10: `match_faces` with any method string other than `"dlib"`
and `"opencv"` silently falls back to the dlib (embedding) comparison and
never reports an unknown-method error. -/
theorem C10_method_fallback :
    ∀ (o : FrO) (cv : CvO) (ocv : CvMatchO) (m : FaceMatcher)
      (face1 face2 : Img) (method : String),
      method ≠ "dlib" → method ≠ "opencv" →
      match_faces o cv ocv m face1 face2 method =
        compare_faces_dlib o cv m face1 face2 := by
  intro o cv ocv m face1 face2 method h1 h2
  rw [match_faces, if_neg h1, if_neg h2]

theorem C10_witness :
    ("deepface" ≠ "dlib") ∧ ("deepface" ≠ "opencv") ∧
    match_faces frTriv cvTriv cvmTriv defaultMatcher img0 img0 "deepface" =
      compare_faces_dlib frTriv cvTriv defaultMatcher img0 img0 :=
  ⟨by decide, by decide,
    C10_method_fallback frTriv cvTriv cvmTriv defaultMatcher img0 img0 "deepface"
      (by decide) (by decide)⟩

/-- The empty pixel buffer. -/
def emptyImg : Img := []

/-- Claim C7, counterexample to the claim as stated: on empty input
`check_image_quality` does not return an explicit `InvalidImage` error
value — the `cv2.cvtColor` call raises `cv2.error` (the function body
has no error handling at all), so the call crashes with an uncaught
library exception. -/
theorem C7_counterexample :
    check_image_quality cvTriv emptyImg = .error .emptyMat := by
  rw [check_image_quality_eq]
  rfl

/-- Claim C7 (amended): `check_image_quality` is a pure function of the
pixel data; on an empty pixel buffer it raises the underlying OpenCV
error instead of returning an `InvalidImage` value, and on every
non-empty image it returns brightness = grayscale mean, sharpness proxy
= variance of the Laplacian response, contrast = grayscale standard
deviation, with the advisory flags brightness > 50, sharpness > 100,
contrast > 30. -/
theorem C7_quality_metrics :
    ∀ (cv : CvO) (image : Img), imgEmptyB image = false →
      check_image_quality cv image =
        .ok { brightness := meanQ (flat2 (cv.bgr2gray image))
              blur_score := varQ (flat2 (cv.laplacian (cv.bgr2gray image)))
              contrast := cv.sqrtQ (varQ (flat2 (cv.bgr2gray image)))
              is_bright_enough := decide (meanQ (flat2 (cv.bgr2gray image)) > 50)
              is_sharp_enough :=
                decide (varQ (flat2 (cv.laplacian (cv.bgr2gray image))) > 100)
              has_good_contrast :=
                decide (cv.sqrtQ (varQ (flat2 (cv.bgr2gray image))) > 30) } := by
  intro cv image hE
  rw [check_image_quality_eq, hE]
  rfl

set_option maxRecDepth 4000 in
theorem C7_witness :
    imgEmptyB img0 = false ∧
    check_image_quality cvTriv img0 =
      .ok { brightness := meanQ (flat2 (cvTriv.bgr2gray img0))
            blur_score := varQ (flat2 (cvTriv.laplacian (cvTriv.bgr2gray img0)))
            contrast := cvTriv.sqrtQ (varQ (flat2 (cvTriv.bgr2gray img0)))
            is_bright_enough := decide (meanQ (flat2 (cvTriv.bgr2gray img0)) > 50)
            is_sharp_enough :=
              decide (varQ (flat2 (cvTriv.laplacian (cvTriv.bgr2gray img0))) > 100)
            has_good_contrast :=
              decide (cvTriv.sqrtQ (varQ (flat2 (cvTriv.bgr2gray img0))) > 30) } :=
  ⟨by decide, C7_quality_metrics cvTriv img0 (by decide)⟩

/-- The `(height, width)` shapes produced by `create_comparison_image`:
the two resized halves and the hstacked canvas. -/
structure ComparisonShape where
  half1 : ℕ × ℕ
  half2 : ℕ × ℕ
  total : ℕ × ℕ
  deriving DecidableEq, Repr

/-- Shape-level model of `FaceMatcher.create_comparison_image` (lines
149-181).  `h = face.shape[0]` is the row count and `w = face.shape[1]`
the row width; with a zero height Python raises `ZeroDivisionError` on
`300 / h`; `int(w * (300 / h))` truncates the positive scale to the
rational floor `w * 300 / h`; `cv2.resize` raises `cv2.error` when the
destination size has a zero dimension; `np.hstack` concatenates the two
equal-height halves side by side; the `cv2.putText` annotations preserve
the canvas shape. -/
def create_comparison_image (face1 face2 : Img) : Except CvErr ComparisonShape :=
  let h1 := face1.length
  let w1 := (face1.headD []).length
  let h2 := face2.length
  let w2 := (face2.headD []).length
  if h1 = 0 ∨ h2 = 0 then .error .zeroDiv
  else
    let new_w1 := w1 * 300 / h1
    let new_w2 := w2 * 300 / h2
    if new_w1 = 0 ∨ new_w2 = 0 then .error .emptyMat
    else .ok ⟨(300, new_w1), (300, new_w2), (300, new_w1 + new_w2)⟩

/-- A 400x1 crop: non-empty, but so thin that the width scaled to height
300 truncates to `int(1 * 300/400) = 0`. -/
def thinCrop : Img := uniformImg 400 1 0

/-- A 100x100 crop. -/
def squareCrop : Img := uniformImg 100 100 0

set_option maxRecDepth 40000 in
/-- Claim C9, counterexample to the claim as stated: rendering the
comparison of a non-empty 400x1 crop against a non-empty 100x100 crop
raises (`cv2.resize` is called with destination width
`int(1 * 300/400) = 0`), so `renderComparison` does not hold for every
pair of non-empty crops. -/
theorem C9_counterexample :
    create_comparison_image thinCrop squareCrop = .error .emptyMat ∧
    imgEmptyB thinCrop = false ∧ imgEmptyB squareCrop = false := by
  refine ⟨?_, by decide, by decide⟩
  rfl

/-- Claim C9 (amended): for crops that are non-empty and not so extreme
that the scaled width truncates to zero (height at most 300 times the
width), rendering never raises and both halves — and the hstacked canvas
— have height exactly 300. -/
theorem C9_render_shape :
    ∀ (face1 face2 : Img),
      0 < face1.length → 0 < face2.length →
      face1.length ≤ 300 * (face1.headD []).length →
      face2.length ≤ 300 * (face2.headD []).length →
      ∃ s, create_comparison_image face1 face2 = .ok s ∧
        s.half1.1 = 300 ∧ s.half2.1 = 300 ∧ s.total.1 = 300 := by
  intro face1 face2 hh1 hh2 hw1 hw2
  have hn1 : (face1.headD []).length * 300 / face1.length ≠ 0 :=
    Nat.ne_of_gt (Nat.div_pos (by omega) hh1)
  have hn2 : (face2.headD []).length * 300 / face2.length ≠ 0 :=
    Nat.ne_of_gt (Nat.div_pos (by omega) hh2)
  have hmain : create_comparison_image face1 face2 =
      .ok ⟨(300, (face1.headD []).length * 300 / face1.length),
           (300, (face2.headD []).length * 300 / face2.length),
           (300, (face1.headD []).length * 300 / face1.length +
             (face2.headD []).length * 300 / face2.length)⟩ := by
    simp only [create_comparison_image]
    rw [if_neg (by omega), if_neg (by push_neg; exact ⟨hn1, hn2⟩)]
  exact ⟨_, hmain, rfl, rfl, rfl⟩

theorem C9_witness :
    0 < squareCrop.length ∧
    squareCrop.length ≤ 300 * (squareCrop.headD []).length ∧
    (∃ s, create_comparison_image squareCrop squareCrop = .ok s ∧
      s.half1.1 = 300 ∧ s.half2.1 = 300 ∧ s.total.1 = 300) :=
  ⟨by decide, by decide,
    C9_render_shape squareCrop squareCrop (by decide) (by decide) (by decide) (by decide)⟩
